import Mathlib

/-
Verification of the knowledge-graph core of the repository:
a shallow embedding in Lean 4 of scripts/knowledge_graph.py (the
KnowledgeGraphManager store, query engine, path finder, analytics and
persistence) and scripts/knowledge_integration.py (the KnowledgeReasoner),
together with theorems settling the specification claims about them.

Modelling conventions:
- Python dicts with string keys are association lists with Python
  insert-or-update semantics (`dictSet` / `dictUpdate`).
- Python floats are exact rationals (`Rat`); all arithmetic the claims
  touch (max, +, *, min, /, comparisons) is exact in both worlds.
- `datetime.now()` is an explicit `now : Int` parameter (seconds);
  `isoformat` strings used only as hash input are rendered by `toString`.
  Chronological comparison of isoformat strings coincides with the
  comparison of the instants they render, which this preserves.
- MD5 is implemented in full (`md5Hex`), so identifier derivation is the
  source's `hashlib.md5(...).hexdigest()[:16]` verbatim.
-/

namespace KG

/-- Tagged value type for Python dict values stored in property maps:
strings, booleans, numbers (exact rationals) and Python None. -/
inductive Value where
  | str (s : String)
  | boolean (b : Bool)
  | num (q : Rat)
  | null
deriving DecidableEq, Repr

/-- A Python `Dict[str, Any]` as an association list in insertion order. -/
abbrev PropMap := List (String × Value)

/-- First-match lookup: the read semantics of a Python dict represented as
an association list (keys are unique in every map built by the code). -/
def plookup (m : PropMap) (k : String) : Option Value :=
  (m.find? (fun kv => kv.1 == k)).map (·.2)

/-- Python `d[k] = v`: overwrite in place when the key is present,
otherwise append the new key at the end. -/
def dictSet (m : PropMap) (k : String) (v : Value) : PropMap :=
  if m.any (fun kv => kv.1 == k) then
    m.map (fun kv => if kv.1 == k then (kv.1, v) else kv)
  else
    m ++ [(k, v)]

/-- Python `dict.update`: incoming keys overwrite on conflict, new keys
are appended in the incoming order. -/
def dictUpdate (m incoming : PropMap) : PropMap :=
  incoming.foldl (fun acc kv => dictSet acc kv.1 kv.2) m

/-! ### MD5 (RFC 1321), on `Nat` with explicit 32-bit reduction -/

def mask32 : Nat := 4294967295

def add32 (a b : Nat) : Nat := (a + b) % 4294967296

def not32 (x : Nat) : Nat := x ^^^ mask32

def rotl32 (x s : Nat) : Nat := ((x <<< s) ||| (x >>> (32 - s))) &&& mask32

/-- The 64 MD5 round constants `K[i] = floor(abs(sin(i+1)) * 2^32)`. -/
def md5K : List Nat :=
  [0xd76aa478, 0xe8c7b756, 0x242070db, 0xc1bdceee,
   0xf57c0faf, 0x4787c62a, 0xa8304613, 0xfd469501,
   0x698098d8, 0x8b44f7af, 0xffff5bb1, 0x895cd7be,
   0x6b901122, 0xfd987193, 0xa679438e, 0x49b40821,
   0xf61e2562, 0xc040b340, 0x265e5a51, 0xe9b6c7aa,
   0xd62f105d, 0x02441453, 0xd8a1e681, 0xe7d3fbc8,
   0x21e1cde6, 0xc33707d6, 0xf4d50d87, 0x455a14ed,
   0xa9e3e905, 0xfcefa3f8, 0x676f02d9, 0x8d2a4c8a,
   0xfffa3942, 0x8771f681, 0x6d9d6122, 0xfde5380c,
   0xa4beea44, 0x4bdecfa9, 0xf6bb4b60, 0xbebfbc70,
   0x289b7ec6, 0xeaa127fa, 0xd4ef3085, 0x04881d05,
   0xd9d4d039, 0xe6db99e5, 0x1fa27cf8, 0xc4ac5665,
   0xf4292244, 0x432aff97, 0xab9423a7, 0xfc93a039,
   0x655b59c3, 0x8f0ccc92, 0xffeff47d, 0x85845dd1,
   0x6fa87e4f, 0xfe2ce6e0, 0xa3014314, 0x4e0811a1,
   0xf7537e82, 0xbd3af235, 0x2ad7d2bb, 0xeb86d391]

/-- The per-round left-rotation amounts. -/
def md5S : List Nat :=
  [7, 12, 17, 22, 7, 12, 17, 22, 7, 12, 17, 22, 7, 12, 17, 22,
   5, 9, 14, 20, 5, 9, 14, 20, 5, 9, 14, 20, 5, 9, 14, 20,
   4, 11, 16, 23, 4, 11, 16, 23, 4, 11, 16, 23, 4, 11, 16, 23,
   6, 10, 15, 21, 6, 10, 15, 21, 6, 10, 15, 21, 6, 10, 15, 21]

/-- UTF-8 encoding of one scalar value (Python `str.encode()`). -/
def utf8Char (c : Char) : List Nat :=
  let n := c.toNat
  if n < 0x80 then [n]
  else if n < 0x800 then
    [0xC0 ||| (n >>> 6), 0x80 ||| (n &&& 0x3F)]
  else if n < 0x10000 then
    [0xE0 ||| (n >>> 12), 0x80 ||| ((n >>> 6) &&& 0x3F), 0x80 ||| (n &&& 0x3F)]
  else
    [0xF0 ||| (n >>> 18), 0x80 ||| ((n >>> 12) &&& 0x3F),
     0x80 ||| ((n >>> 6) &&& 0x3F), 0x80 ||| (n &&& 0x3F)]

def utf8Bytes (s : String) : List Nat :=
  s.data.foldr (fun c acc => utf8Char c ++ acc) []

/-- MD5 padding: a `0x80` byte, zeros to 56 mod 64, then the bit length
as eight little-endian bytes. -/
def md5Pad (msg : List Nat) : List Nat :=
  let len := msg.length
  let zeros := (120 - (len + 1) % 64) % 64
  msg ++ [128] ++ List.replicate zeros 0 ++
    (List.range 8).map (fun i => ((len * 8) >>> (8 * i)) &&& 255)

/-- Word `j` of a 64-byte chunk, little-endian. -/
def md5Word (chunk : List Nat) (j : Nat) : Nat :=
  chunk.getD (4 * j) 0 + chunk.getD (4 * j + 1) 0 * 256 +
    chunk.getD (4 * j + 2) 0 * 65536 + chunk.getD (4 * j + 3) 0 * 16777216

/-- One of the 64 MD5 rounds. -/
def md5Round (chunk : List Nat) (st : Nat × Nat × Nat × Nat) (i : Nat) :
    Nat × Nat × Nat × Nat :=
  let a := st.1
  let b := st.2.1
  let c := st.2.2.1
  let d := st.2.2.2
  let fg : Nat × Nat :=
    if i < 16 then ((b &&& c) ||| (not32 b &&& d), i)
    else if i < 32 then ((d &&& b) ||| (not32 d &&& c), (5 * i + 1) % 16)
    else if i < 48 then (b ^^^ c ^^^ d, (3 * i + 5) % 16)
    else (c ^^^ (b ||| not32 d), (7 * i) % 16)
  let f := (fg.1 + a + md5K.getD i 0 + md5Word chunk fg.2) % 4294967296
  (d, add32 b (rotl32 f (md5S.getD i 0)), b, c)

/-- Process one 64-byte chunk into the running hash state. -/
def md5Chunk (h : Nat × Nat × Nat × Nat) (chunk : List Nat) :
    Nat × Nat × Nat × Nat :=
  let r := (List.range 64).foldl (md5Round chunk) h
  (add32 h.1 r.1, add32 h.2.1 r.2.1, add32 h.2.2.1 r.2.2.1, add32 h.2.2.2 r.2.2.2)

def hexDigit (n : Nat) : Char :=
  if n < 10 then Char.ofNat (48 + n) else Char.ofNat (87 + n)

def byteHex (b : Nat) : List Char := [hexDigit (b / 16), hexDigit (b % 16)]

def wordLEBytes (w : Nat) : List Nat :=
  [w &&& 255, (w >>> 8) &&& 255, (w >>> 16) &&& 255, (w >>> 24) &&& 255]

/-- `hashlib.md5(s.encode()).hexdigest()`: lowercase hex digest of MD5. -/
def md5Hex (s : String) : String :=
  let msg := md5Pad (utf8Bytes s)
  let n := msg.length / 64
  let h := (List.range n).foldl
    (fun h i => md5Chunk h ((msg.drop (64 * i)).take 64))
    (1732584193, 4023233417, 2562383102, 271733878)
  String.mk ((wordLEBytes h.1 ++ wordLEBytes h.2.1 ++
    wordLEBytes h.2.2.1 ++ wordLEBytes h.2.2.2).foldr
      (fun b acc => byteHex b ++ acc) [])

/-- `hashlib.md5(s.encode()).hexdigest()[:16]`, the id shape used
throughout `knowledge_graph.py`. -/
def md5_16 (s : String) : String := (md5Hex s).take 16

/-! ### Data model (`knowledge_graph.py` dataclasses) -/

/-- `KnowledgeEntity`: timestamps are instants (`Int` seconds). -/
structure KnowledgeEntity where
  id : String
  name : String
  type : String
  properties : PropMap
  confidence : Rat
  created_at : Int
  updated_at : Int
  source : String
deriving DecidableEq, Repr

/-- `KnowledgeRelation`. -/
structure KnowledgeRelation where
  id : String
  source_id : String
  target_id : String
  relation_type : String
  properties : PropMap
  confidence : Rat
  created_at : Int
  updated_at : Int
  source : String
deriving DecidableEq, Repr

/-- `KnowledgeQuery`, the append-only audit record of each query issued. -/
structure KnowledgeQuery where
  query_id : String
  query_text : String
  query_type : String
  parameters : PropMap
  timestamp : Int
deriving DecidableEq, Repr

/-- `KnowledgeInsight`, produced by `analyze_patterns`. -/
structure KnowledgeInsight where
  insight_id : String
  title : String
  description : String
  insight_type : String
  confidence : Rat
  evidence : List String
  created_at : Int
deriving DecidableEq, Repr

/-- The `KnowledgeGraphManager` state: the four in-memory collections
(dicts in insertion order, keyed by the records' `id` fields) plus the
durable snapshot of each that `_save_data` last wrote to disk. -/
structure KGState where
  entities : List KnowledgeEntity
  relations : List KnowledgeRelation
  queries : List KnowledgeQuery
  insights : List KnowledgeInsight
  durableEntities : List KnowledgeEntity
  durableRelations : List KnowledgeRelation
  durableQueries : List KnowledgeQuery
  durableInsights : List KnowledgeInsight
deriving DecidableEq, Repr

/-- `_save_data`: serialize all four collections, overwriting the prior
durable state. -/
def save_data (st : KGState) : KGState :=
  { st with durableEntities := st.entities, durableRelations := st.relations,
            durableQueries := st.queries, durableInsights := st.insights }

/-- A fresh manager over empty collections (empty files on disk). -/
def emptyState : KGState := ⟨[], [], [], [], [], [], [], []⟩

/-- Python truthiness of an optional-string argument (`if entity_type and ...`):
`None` and the empty string are falsy. -/
def optTruthy : Option String → Bool
  | none => false
  | some s => !(s == "")

/-- How an optional string renders inside an f-string (`None` for absent). -/
def optStr : Option String → String
  | none => "None"
  | some s => s

/-- An optional string stored as a parameter value (`None` for absent). -/
def optValue : Option String → Value
  | none => Value.null
  | some s => Value.str s

/-- Occurrence of `pat` as a contiguous sublist. -/
def listHasSub (pat : List Char) : List Char → Bool
  | [] => pat.isEmpty
  | c :: rest => pat.isPrefixOf (c :: rest) || listHasSub pat rest

/-- `re.search(pattern, name, re.IGNORECASE)`, modelled for
metacharacter-free patterns: case-insensitive substring containment
(ASCII case folding).  No claim exercises the pattern filter. -/
def re_search_ci (pattern s : String) : Bool :=
  listHasSub (pattern.data.map Char.toLower) (s.data.map Char.toLower)

/-- Stable descending sort by a rational key: the semantics of Python
`sorted(..., key=key, reverse=True)` (equal keys keep their order). -/
def insertDescBy {α : Type} (key : α → Rat) (x : α) : List α → List α
  | [] => [x]
  | y :: ys => if key y < key x then x :: y :: ys else y :: insertDescBy key x ys

def sortDescBy {α : Type} (key : α → Rat) (l : List α) : List α :=
  l.foldl (fun acc x => insertDescBy key x acc) []

/-! ### EntityStore / RelationStore upserts -/

/-- `hashlib.md5(f"\x7bname\x7d_\x7bentity_type\x7d".encode()).hexdigest()[:16]`. -/
def entityId (name entity_type : String) : String :=
  md5_16 (name ++ "_" ++ entity_type)

/-- `hashlib.md5(f"\x7bsource_id\x7d_\x7brelation_type\x7d_\x7btarget_id\x7d".encode()).hexdigest()[:16]`. -/
def relationId (source_id relation_type target_id : String) : String :=
  md5_16 (source_id ++ "_" ++ relation_type ++ "_" ++ target_id)

/-- `KnowledgeGraphManager.add_entity`. -/
def add_entity (st : KGState) (name entity_type : String) (properties : PropMap)
    (confidence : Rat) (source : String) (now : Int) : String × KGState :=
  let entity_id := entityId name entity_type
  let entities :=
    if st.entities.any (fun e => e.id == entity_id) then
      st.entities.map (fun e =>
        if e.id == entity_id then
          { e with properties := dictUpdate e.properties properties,
                   confidence := max e.confidence confidence,
                   updated_at := now }
        else e)
    else
      st.entities ++ [{ id := entity_id, name := name, type := entity_type,
                        properties := properties, confidence := confidence,
                        created_at := now, updated_at := now, source := source }]
  (entity_id, save_data { st with entities := entities })

/-- `KnowledgeGraphManager.add_relation`. -/
def add_relation (st : KGState) (source_id target_id relation_type : String)
    (properties : PropMap) (confidence : Rat) (source : String) (now : Int) :
    String × KGState :=
  let relation_id := relationId source_id relation_type target_id
  let relations :=
    if st.relations.any (fun r => r.id == relation_id) then
      st.relations.map (fun r =>
        if r.id == relation_id then
          { r with properties := dictUpdate r.properties properties,
                   confidence := max r.confidence confidence,
                   updated_at := now }
        else r)
    else
      st.relations ++ [{ id := relation_id, source_id := source_id,
                         target_id := target_id, relation_type := relation_type,
                         properties := properties, confidence := confidence,
                         created_at := now, updated_at := now, source := source }]
  (relation_id, save_data { st with relations := relations })

/-- Dict lookup of an entity by id (`self.entities[eid]` as an `Option`). -/
def getEntity (st : KGState) (eid : String) : Option KnowledgeEntity :=
  st.entities.find? (fun e => e.id == eid)

/-! ### QueryEngine -/

/-- `KnowledgeGraphManager.query_entities`: linear filter, audit record,
result sorted by confidence descending.  Note: the query is appended to
the in-memory audit collection but `_save_data` is NOT called here. -/
def query_entities (st : KGState) (entity_type name_pattern : Option String)
    (min_confidence : Rat) (now : Int) : List KnowledgeEntity × KGState :=
  let results := st.entities.filter (fun e =>
    !(optTruthy entity_type && !(e.type == entity_type.getD "")) &&
    !(optTruthy name_pattern && !(re_search_ci (name_pattern.getD "") e.name)) &&
    !(decide (e.confidence < min_confidence)))
  let query : KnowledgeQuery := {
    query_id := md5_16 ("entities_" ++ toString now)
    query_text := "type=" ++ optStr entity_type ++ ", pattern=" ++
      optStr name_pattern ++ ", min_confidence=" ++ toString min_confidence
    query_type := "entity"
    parameters := [("entity_type", optValue entity_type),
                   ("name_pattern", optValue name_pattern),
                   ("min_confidence", Value.num min_confidence)]
    timestamp := now }
  (sortDescBy (·.confidence) results, { st with queries := st.queries ++ [query] })

/-- `KnowledgeGraphManager.query_relations`: analogous filter over
relations; appends a Query record, does not flush. -/
def query_relations (st : KGState) (source_id target_id relation_type : Option String)
    (min_confidence : Rat) (now : Int) : List KnowledgeRelation × KGState :=
  let results := st.relations.filter (fun r =>
    !(optTruthy source_id && !(r.source_id == source_id.getD "")) &&
    !(optTruthy target_id && !(r.target_id == target_id.getD "")) &&
    !(optTruthy relation_type && !(r.relation_type == relation_type.getD "")) &&
    !(decide (r.confidence < min_confidence)))
  let query : KnowledgeQuery := {
    query_id := md5_16 ("relations_" ++ toString now)
    query_text := "source=" ++ optStr source_id ++ ", target=" ++ optStr target_id ++
      ", type=" ++ optStr relation_type ++ ", min_confidence=" ++ toString min_confidence
    query_type := "relation"
    parameters := [("source_id", optValue source_id),
                   ("target_id", optValue target_id),
                   ("relation_type", optValue relation_type),
                   ("min_confidence", Value.num min_confidence)]
    timestamp := now }
  (sortDescBy (·.confidence) results, { st with queries := st.queries ++ [query] })

/-! ### PathFinder -/

/-- The recursive `dfs` of `KnowledgeGraphManager.find_path`.
`fuel = max_depth + 1 - depth`, so `fuel = 0` is the `depth > max_depth`
guard.  The shared `visited` set is restored on backtrack in the source,
so each recursive call sees exactly its ancestors: it is passed here as a
per-branch value. -/
def dfs (rels : List KnowledgeRelation) (targetId : String) :
    Nat → List String → String → List String → List (List String)
  | 0, _, _, _ => []
  | fuel + 1, visited, current, path =>
    if current = targetId ∧ 1 < path.length then [path]
    else if current ∈ visited then []
    else
      (rels.map (fun r =>
        if r.source_id = current then
          dfs rels targetId fuel (current :: visited) r.target_id
            (path ++ [r.relation_type, r.target_id])
        else [])).flatten

/-- `KnowledgeGraphManager.find_path`: depth-bounded DFS plus the Query
audit record (again without a flush). -/
def find_path (st : KGState) (source_id target_id : String) (max_depth : Nat)
    (now : Int) : List (List String) × KGState :=
  let paths := dfs st.relations target_id (max_depth + 1) [] source_id [source_id]
  let query : KnowledgeQuery := {
    query_id := md5_16 ("path_" ++ toString now)
    query_text := "path from " ++ source_id ++ " to " ++ target_id ++
      ", max_depth=" ++ toString max_depth
    query_type := "path"
    parameters := [("source_id", Value.str source_id),
                   ("target_id", Value.str target_id),
                   ("max_depth", Value.num max_depth)]
    timestamp := now }
  (paths, { st with queries := st.queries ++ [query] })

/-! ### AnalyticsEngine -/

/-- One counting step of `collections.Counter` (and of a `defaultdict(int)`
increment): keys appear in first-occurrence order. -/
def counterBump (acc : List (String × Nat)) (k : String) : List (String × Nat) :=
  if acc.any (fun p => p.1 == k) then
    acc.map (fun p => if p.1 == k then (p.1, p.2 + 1) else p)
  else acc ++ [(k, 1)]

/-- `collections.Counter(iterable)` over strings. -/
def pyCounter (l : List String) : List (String × Nat) := l.foldl counterBump []

/-- `Counter.most_common(1)[0]` and `max(items, key=itemgetter(1))`:
the first entry of maximal count (both CPython constructs are stable,
breaking ties by first occurrence). -/
def maxBySnd (c : List (String × Nat)) : String × Nat :=
  c.foldl (fun best p => if best.2 < p.2 then p else best) (c.headD ("", 0))

/-- Node degree map: each relation bumps its source then its target, in
relation insertion order (`defaultdict(int)`). -/
def nodeDegrees (rels : List KnowledgeRelation) : List (String × Nat) :=
  rels.foldl (fun m r => counterBump (counterBump m r.source_id) r.target_id) []

/-- Round half to even, Python `round` on exact values. -/
def roundHalfEven (q : Rat) : Int :=
  let f := q.floor
  let r := q - f
  if r < 1 / 2 then f
  else if 1 / 2 < r then f + 1
  else if f % 2 = 0 then f else f + 1

/-- Python format `:.1f` for the nonnegative percentages in insight text
(the representation error of binary doubles is not modelled; no claim
reads these rendered strings). -/
def fmtFixed1 (q : Rat) : String :=
  let n := roundHalfEven (q * 10)
  toString (n / 10) ++ "." ++ toString (n % 10)

/-- Python `round(x, d)` on an exact rational. -/
def pyRound (q : Rat) (d : Nat) : Rat :=
  (roundHalfEven (q * ((10 : Nat) ^ d : Nat)) : Rat) / ((10 : Nat) ^ d : Nat)

def reprCounterEntries : List (String × Nat) → String
  | [] => ""
  | [p] => "\x27" ++ p.1 ++ "\x27: " ++ toString p.2
  | p :: ps => "\x27" ++ p.1 ++ "\x27: " ++ toString p.2 ++ ", " ++ reprCounterEntries ps

/-- `repr` of a string-to-int dict, used in evidence strings. -/
def reprCounter (c : List (String × Nat)) : String :=
  "\x7b" ++ reprCounterEntries c ++ "\x7d"

/-- `KnowledgeGraphManager.analyze_patterns`: up to three pattern
insights (entity-type distribution, relation-type distribution,
connectivity), appended to the insight collection and flushed.
The connectivity insight is emitted only when the highest-degree node id
is present in the entity store. -/
def analyze_patterns (st : KGState) (now : Int) :
    List KnowledgeInsight × KGState :=
  let entity_types := pyCounter (st.entities.map (·.type))
  let part1 : List KnowledgeInsight :=
    if entity_types ≠ [] then
      let mc := maxBySnd entity_types
      [{ insight_id := md5_16 ("entity_distribution_" ++ toString now)
         title := "实体类型分布分析"
         description := "最常见的实体类型是 \x27" ++ mc.1 ++ "\x27，占比 " ++
           fmtFixed1 ((mc.2 : Rat) / (st.entities.length : Rat) * 100) ++ "%"
         insight_type := "pattern"
         confidence := 9 / 10
         evidence := ["实体类型统计: " ++ reprCounter entity_types]
         created_at := now }]
    else []
  let relation_types := pyCounter (st.relations.map (·.relation_type))
  let part2 : List KnowledgeInsight :=
    if relation_types ≠ [] then
      let mc := maxBySnd relation_types
      [{ insight_id := md5_16 ("relation_distribution_" ++ toString now)
         title := "关系类型分布分析"
         description := "最常见的关系类型是 \x27" ++ mc.1 ++ "\x27，占比 " ++
           fmtFixed1 ((mc.2 : Rat) / (st.relations.length : Rat) * 100) ++ "%"
         insight_type := "pattern"
         confidence := 9 / 10
         evidence := ["关系类型统计: " ++ reprCounter relation_types]
         created_at := now }]
    else []
  let node_degrees := nodeDegrees st.relations
  let part3 : List KnowledgeInsight :=
    if node_degrees ≠ [] then
      let mx := maxBySnd node_degrees
      match st.entities.find? (fun e => e.id == mx.1) with
      | some e =>
        [{ insight_id := md5_16 ("connectivity_" ++ toString now)
           title := "连接度分析"
           description := "\x27" ++ e.name ++ "\x27 是连接度最高的实体，有 " ++
             toString mx.2 ++ " 个连接"
           insight_type := "pattern"
           confidence := 8 / 10
           evidence := ["节点连接度: " ++
             reprCounter ((sortDescBy (fun p => (p.2 : Rat)) node_degrees).take 5)]
           created_at := now }]
      | none => []
    else []
  let new_insights := part1 ++ part2 ++ part3
  (new_insights, save_data { st with insights := st.insights ++ new_insights })

/-- The dictionary returned by `KnowledgeGraphManager.get_statistics`. -/
structure KGStatistics where
  entities_total : Nat
  entity_types : List (String × Nat)
  avg_entity_confidence : Rat
  relations_total : Nat
  relation_types : List (String × Nat)
  avg_relation_confidence : Rat
  avg_degree : Rat
  max_degree : Nat
  connected_nodes : Nat
  queries_total : Nat
  queries_recent_24h : Nat
  insights_total : Nat
  insights_recent_7d : Nat
deriving DecidableEq, Repr

/-- `KnowledgeGraphManager.get_statistics`. -/
def get_statistics (st : KGState) (now : Int) : KGStatistics :=
  let entity_types := pyCounter (st.entities.map (·.type))
  let relation_types := pyCounter (st.relations.map (·.relation_type))
  let avg_entity := if st.entities ≠ [] then
    (st.entities.map (·.confidence)).sum / (st.entities.length : Rat) else 0
  let avg_relation := if st.relations ≠ [] then
    (st.relations.map (·.confidence)).sum / (st.relations.length : Rat) else 0
  let node_degrees := nodeDegrees st.relations
  let avg_degree := if node_degrees ≠ [] then
    ((node_degrees.map (·.2)).sum : Rat) / (node_degrees.length : Rat) else 0
  let max_degree := (node_degrees.map (·.2)).foldl max 0
  { entities_total := st.entities.length
    entity_types := entity_types
    avg_entity_confidence := pyRound avg_entity 3
    relations_total := st.relations.length
    relation_types := relation_types
    avg_relation_confidence := pyRound avg_relation 3
    avg_degree := pyRound avg_degree 2
    max_degree := max_degree
    connected_nodes := node_degrees.length
    queries_total := st.queries.length
    queries_recent_24h :=
      (st.queries.filter (fun q => decide (now - 86400 < q.timestamp))).length
    insights_total := st.insights.length
    insights_recent_7d :=
      (st.insights.filter (fun i => decide (now - 7 * 86400 < i.created_at))).length }

/-! ### PersistenceLayer: export and retention -/

/-- What `export_graph` writes: either the consolidated snapshot document
or the GraphML description (numbers inside the rendered lines appear via
`toString` of the exact rational; no claim reads them). -/
inductive ExportResult where
  | jsonDoc (path : String) (export_time : Int) (version : String)
      (statistics : KGStatistics) (entities : List KnowledgeEntity)
      (relations : List KnowledgeRelation) (insights : List KnowledgeInsight)
  | graphmlDoc (path : String) (lines : List String)
deriving DecidableEq, Repr

/-- `KnowledgeGraphManager.export_graph`: the collections are read, never
mutated; an unsupported format raises (`Except.error`) before any output
is produced. -/
def export_graph (st : KGState) (format_type : String) (now : Int) :
    Except String ExportResult :=
  if format_type = "json" then
    .ok (.jsonDoc
      ("outputs/knowledge/knowledge_graph_export_" ++ toString now ++ ".json")
      now "1.0" (get_statistics st now) st.entities st.relations st.insights)
  else if format_type = "graphml" then
    let nodes := (st.entities.map (fun e =>
      ["<node id=\"" ++ e.id ++ "\">",
       "<data key=\"name\">" ++ e.name ++ "</data>",
       "<data key=\"type\">" ++ e.type ++ "</data>",
       "<data key=\"confidence\">" ++ toString e.confidence ++ "</data>",
       "</node>"])).flatten
    let edges := (st.relations.map (fun r =>
      ["<edge source=\"" ++ r.source_id ++ "\" target=\"" ++ r.target_id ++ "\">",
       "<data key=\"type\">" ++ r.relation_type ++ "</data>",
       "<data key=\"confidence\">" ++ toString r.confidence ++ "</data>",
       "</edge>"])).flatten
    .ok (.graphmlDoc
      ("outputs/knowledge/knowledge_graph_export_" ++ toString now ++ ".graphml")
      (["<?xml version=\"1.0\" encoding=\"UTF-8\"?>",
        "<graphml xmlns=\"http://graphml.graphdrawing.org/xmlns\">",
        "<graph id=\"knowledge_graph\" edgedefault=\"directed\">"] ++
       nodes ++ edges ++ ["</graph>", "</graphml>"]))
  else
    .error ("Unsupported export format: " ++ format_type)

/-- The counts `cleanup_old_data` returns. -/
structure CleanupResult where
  cleaned_queries : Nat
  cleaned_insights : Nat
  remaining_queries : Nat
  remaining_insights : Nat
deriving DecidableEq, Repr

/-- `KnowledgeGraphManager.cleanup_old_data` with an explicit `days`
argument (the `days=None` default substitutes the configured retention,
365 by default, before reaching this logic).  Queries and insights
strictly older than `now - days` are dropped; entities and relations are
not touched; the result is flushed. -/
def cleanup_old_data (st : KGState) (days : Nat) (now : Int) :
    CleanupResult × KGState :=
  let cutoff : Int := now - (days : Int) * 86400
  let old_queries := st.queries.filter (fun q => decide (q.timestamp < cutoff))
  let queries := st.queries.filter (fun q => decide (cutoff ≤ q.timestamp))
  let old_insights := st.insights.filter (fun i => decide (i.created_at < cutoff))
  let insights := st.insights.filter (fun i => decide (cutoff ≤ i.created_at))
  let st2 := save_data { st with queries := queries, insights := insights }
  (⟨old_queries.length, old_insights.length, queries.length, insights.length⟩, st2)

/-! ### Reasoner (`knowledge_integration.py`, class KnowledgeReasoner) -/

/-- Python `str.split()` with no separator: split on whitespace runs,
discarding empty fragments.  `cur` carries the current token reversed. -/
def pySplitWsAux : List Char → List Char → List String
  | [], cur => if cur ≠ [] then [String.mk cur.reverse] else []
  | c :: rest, cur =>
    if c.isWhitespace then
      if cur ≠ [] then String.mk cur.reverse :: pySplitWsAux rest []
      else pySplitWsAux rest []
    else pySplitWsAux rest (c :: cur)

def pySplitWs (s : String) : List String := pySplitWsAux s.data []

/-- `set(name.lower().split())`: lowercase whitespace tokens as a set
(ASCII case folding models `str.lower()` on the identifiers involved). -/
def nameTokens (s : String) : Finset String :=
  (pySplitWs (String.mk (s.data.map Char.toLower))).toFinset

/-- `set(properties.keys())`. -/
def propKeys (p : PropMap) : Finset String := (p.map (·.1)).toFinset

/-- `len(a & b) / len(a | b) if len(a | b) > 0 else 0`. -/
def jaccard (a b : Finset String) : Rat :=
  if (a ∪ b).card ≠ 0 then ((a ∩ b).card : Rat) / ((a ∪ b).card : Rat) else 0

/-- `KnowledgeReasoner._calculate_similarity`: 0.3 for type equality,
0.4 times the name-token Jaccard (only when both token sets are truthy),
0.3 times the property-key Jaccard (only when both key sets are truthy),
clipped above at 1. -/
def calculate_similarity (e1 e2 : KnowledgeEntity) : Rat :=
  let s1 : Rat := if e1.type = e2.type then 3 / 10 else 0
  let n1 := nameTokens e1.name
  let n2 := nameTokens e2.name
  let s2 : Rat := if n1 ≠ ∅ ∧ n2 ≠ ∅ then s1 + jaccard n1 n2 * (4 / 10) else s1
  let p1 := propKeys e1.properties
  let p2 := propKeys e2.properties
  let s3 : Rat := if p1 ≠ ∅ ∧ p2 ≠ ∅ then s2 + jaccard p1 p2 * (3 / 10) else s2
  min s3 1

/-- `KnowledgeReasoner.infer_transitive_relations`: one generation of
transitive inference over the given relation type.  Every
existing-relation check goes through `query_relations` and therefore
appends a Query audit record; the per-type relation list itself is
fetched through `query_relations` as well. -/
def infer_transitive_relations (st : KGState) (relation_type : String)
    (now : Int) : List (String × String) × KGState :=
  let fetched := query_relations st none none (some relation_type) 0 now
  let graph : List (String × List String) := fetched.1.foldl (fun g r =>
    if g.any (fun p => p.1 == r.source_id) then
      g.map (fun p => if p.1 == r.source_id then (p.1, p.2 ++ [r.target_id]) else p)
    else g ++ [(r.source_id, [r.target_id])]) []
  let scanned : List (String × String) × KGState :=
    graph.foldl (fun acc p =>
      p.2.foldl (fun acc2 intermediate =>
        match (graph.find? (fun q => q.1 == intermediate)).map (·.2) with
        | none => acc2
        | some targets =>
          targets.foldl (fun acc3 target =>
            if target ≠ p.1 then
              let chk := query_relations acc3.2 (some p.1) (some target)
                (some relation_type) 0 now
              if chk.1 = [] then (acc3.1 ++ [(p.1, target)], chk.2)
              else (acc3.1, chk.2)
            else acc3) acc2) acc) ([], fetched.2)
  let st3 := scanned.1.foldl (fun s pr =>
    (add_relation s pr.1 pr.2 relation_type
      [("inferred", Value.boolean true), ("inference_type", Value.str "transitive")]
      (6 / 10) "reasoning" now).2) scanned.2
  (scanned.1, st3)

/-- `KnowledgeReasoner.find_similar_entities`: scores every other entity,
and for each one meeting the threshold records a `similar_to` relation
unless one already exists (the check once more goes through
`query_relations`); returns the qualifying ids sorted by score descending. -/
def find_similar_entities (st : KGState) (entity_id : String)
    (similarity_threshold : Rat) (now : Int) : List String × KGState :=
  match st.entities.find? (fun e => e.id == entity_id) with
  | none => ([], st)
  | some target_entity =>
    let scanned : List (String × Rat) × KGState :=
      st.entities.foldl (fun acc other =>
        if other.id = entity_id then acc
        else
          let similarity := calculate_similarity target_entity other
          if similarity_threshold ≤ similarity then
            let acc1 := acc.1 ++ [(other.id, similarity)]
            let chk := query_relations acc.2 (some entity_id) (some other.id)
              (some "similar_to") 0 now
            if chk.1 = [] then
              (acc1, (add_relation chk.2 entity_id other.id "similar_to"
                [("similarity_score", Value.num similarity),
                 ("inferred", Value.boolean true)]
                similarity "reasoning" now).2)
            else (acc1, chk.2)
          else acc) ([], st)
    ((sortDescBy (·.2) scanned.1).map (·.1), scanned.2)

/-- The static `type_based_relations` table of
`KnowledgeReasoner.recommend_relations` (with its `'related_to'` default). -/
def type_based_relations (t : String) : List String :=
  if t = "function" then ["uses", "implements", "calls"]
  else if t = "class" then ["extends", "implements", "contains"]
  else if t = "library" then ["provides", "depends_on"]
  else if t = "error" then ["caused_by", "related_to"]
  else if t = "file" then ["contains", "imports"]
  else ["related_to"]

/-- The static `type_compatibility` table of
`KnowledgeReasoner._calculate_relation_confidence` (default 0.3). -/
def type_compatibility (source_type target_type relation_type : String) : Rat :=
  if source_type = "function" ∧ target_type = "library" ∧ relation_type = "uses" then 8 / 10
  else if source_type = "class" ∧ target_type = "class" ∧ relation_type = "extends" then 9 / 10
  else if source_type = "function" ∧ target_type = "function" ∧ relation_type = "calls" then 7 / 10
  else if source_type = "error" ∧ target_type = "file" ∧ relation_type = "occurs_in" then 8 / 10
  else if source_type = "file" ∧ target_type = "library" ∧ relation_type = "imports" then 8 / 10
  else 3 / 10

/-- `KnowledgeReasoner._calculate_relation_confidence`. -/
def calculate_relation_confidence (src tgt : KnowledgeEntity)
    (relation_type : String) : Rat :=
  min (type_compatibility src.type tgt.type relation_type +
    calculate_similarity src tgt * (2 / 10)) 1

/-- One recommendation entry of `KnowledgeReasoner.recommend_relations`. -/
structure Recommendation where
  source_id : String
  target_id : String
  relation_type : String
  confidence : Rat
  reason : String
deriving DecidableEq, Repr

/-- `KnowledgeReasoner.recommend_relations`: for every other entity and
every relation type suggested for the source's type, checks for an
existing relation via `query_relations` (appending a Query record per
check), keeps candidates with confidence above 0.5, and returns the top
`max_recommendations` sorted by confidence descending. -/
def recommend_relations (st : KGState) (entity_id : String)
    (max_recommendations : Nat) (now : Int) : List Recommendation × KGState :=
  match st.entities.find? (fun e => e.id == entity_id) with
  | none => ([], st)
  | some entity =>
    let suggested := type_based_relations entity.type
    let scanned : List Recommendation × KGState :=
      st.entities.foldl (fun acc other =>
        if other.id = entity_id then acc
        else
          suggested.foldl (fun acc2 relation_type =>
            let chk := query_relations acc2.2 (some entity_id) (some other.id)
              (some relation_type) 0 now
            if chk.1 = [] then
              let confidence := calculate_relation_confidence entity other relation_type
              if 1 / 2 < confidence then
                (acc2.1 ++ [{ source_id := entity_id, target_id := other.id,
                              relation_type := relation_type,
                              confidence := confidence,
                              reason := "Based on entity types: " ++ entity.type ++
                                " -> " ++ other.type }], chk.2)
              else (acc2.1, chk.2)
            else (acc2.1, chk.2)) acc) ([], st)
    ((sortDescBy (·.confidence) scanned.1).take max_recommendations, scanned.2)

/-! ### Concrete stores used by the claim instances -/

/-- A store holding exactly the relations A –uses→ B and B –requires→ C. -/
def pathState : KGState :=
  (add_relation (add_relation emptyState "A" "B" "uses" [] 1 "manual" 0).2
    "B" "C" "requires" [] 1 "manual" 0).2

/-- A store holding exactly the relations A –calls→ B and B –calls→ C. -/
def chainState : KGState :=
  (add_relation (add_relation emptyState "A" "B" "calls" [] 1 "manual" 0).2
    "B" "C" "calls" [] 1 "manual" 0).2

/-- One entity plus one relation whose endpoints are dangling ids
(referential integrity is not enforced by the store). -/
def danglingState : KGState :=
  { emptyState with
    entities := [{ id := "e1", name := "foo", type := "concept", properties := [],
                   confidence := 1, created_at := 0, updated_at := 0,
                   source := "manual" }],
    relations := [{ id := "r1", source_id := "X", target_id := "Y",
                    relation_type := "uses", properties := [], confidence := 1,
                    created_at := 0, updated_at := 0, source := "manual" }] }

/-- Two stored entities joined by one relation between their own ids. -/
def connState : KGState :=
  { emptyState with
    entities := [{ id := "A", name := "alpha", type := "concept", properties := [],
                   confidence := 1, created_at := 0, updated_at := 0,
                   source := "manual" },
                 { id := "B", name := "beta", type := "concept", properties := [],
                   confidence := 1, created_at := 0, updated_at := 0,
                   source := "manual" }],
    relations := [{ id := "rAB", source_id := "A", target_id := "B",
                    relation_type := "uses", properties := [], confidence := 1,
                    created_at := 0, updated_at := 0, source := "manual" }] }

/-- Two identically named `concept` entities, for the similarity scan. -/
def simState : KGState :=
  { emptyState with entities :=
    [{ id := "s1", name := "x", type := "concept", properties := [],
       confidence := 1, created_at := 0, updated_at := 0, source := "m" },
     { id := "s2", name := "x", type := "concept", properties := [],
       confidence := 1, created_at := 0, updated_at := 0, source := "m" }] }

/-- A `function` entity and a `library` entity, for recommendations. -/
def recState : KGState :=
  { emptyState with entities :=
    [{ id := "f1", name := "foo bar", type := "function",
       properties := [("p", Value.boolean true)], confidence := 1,
       created_at := 0, updated_at := 0, source := "m" },
     { id := "l1", name := "bar", type := "library",
       properties := [("q", Value.boolean true)], confidence := 1,
       created_at := 0, updated_at := 0, source := "m" }] }

/-! ## Theorems for the claims -/

set_option maxRecDepth 40000

attribute [local semireducible] Rat.add Rat.mul Rat.inv Rat.sub Rat.ofScientific

/-- C9: the entity identifier (truncated MD5 of `name ++ "_" ++ type`) is
not injective on (name, type): name "a" with type "b_c" and name "a_b"
with type "c" derive the same id, so the second upsert merges into the
first entity's record, keeping its name and type, instead of creating a
new entity; relation identifiers concatenate their parts with the same
ambiguous "_" separator and collide likewise. -/
theorem entity_id_separator_collision :
    entityId "a" "b_c" = entityId "a_b" "c" ∧
    ((add_entity (add_entity emptyState "a" "b_c" [] 1 "manual" 0).2
        "a_b" "c" [("k", Value.str "v")] (1 / 2) "manual" 1).1 =
      entityId "a" "b_c") ∧
    ((add_entity (add_entity emptyState "a" "b_c" [] 1 "manual" 0).2
        "a_b" "c" [("k", Value.str "v")] (1 / 2) "manual" 1).2.entities.map
        (fun e => (e.name, e.type)) = [("a", "b_c")]) ∧
    relationId "a" "b_c" "d" = relationId "a_b" "c" "d" := by
  decide

/-- C5 counterexample: `query_entities` appends a Query record to the
in-memory audit collection without invoking `_save_data`, so right after
it returns the durable snapshot of the Query collection differs from the
in-memory state — the claimed durability-on-return contract fails for the
query operations. -/
theorem query_without_flush_counterexample :
    ((query_entities (save_data emptyState) none none 0 0).2).durableQueries ≠
      ((query_entities (save_data emptyState) none none 0 0).2).queries := by
  decide

/-- C5 (amended): a full flush does occur before return for the entity
and relation upserts, for `analyze_patterns` and for `cleanup_old_data`;
but `query_entities`, `query_relations` and `find_path` append a Query
record while leaving the durable queries untouched, so durability-on-
return holds only for the non-query mutations. -/
theorem flush_on_mutation_amended :
    (∀ st name ty props conf src now,
      ((add_entity st name ty props conf src now).2).durableEntities =
        ((add_entity st name ty props conf src now).2).entities ∧
      ((add_entity st name ty props conf src now).2).durableRelations =
        ((add_entity st name ty props conf src now).2).relations ∧
      ((add_entity st name ty props conf src now).2).durableQueries =
        ((add_entity st name ty props conf src now).2).queries ∧
      ((add_entity st name ty props conf src now).2).durableInsights =
        ((add_entity st name ty props conf src now).2).insights) ∧
    (∀ st sid tid rt props conf src now,
      ((add_relation st sid tid rt props conf src now).2).durableEntities =
        ((add_relation st sid tid rt props conf src now).2).entities ∧
      ((add_relation st sid tid rt props conf src now).2).durableRelations =
        ((add_relation st sid tid rt props conf src now).2).relations ∧
      ((add_relation st sid tid rt props conf src now).2).durableQueries =
        ((add_relation st sid tid rt props conf src now).2).queries ∧
      ((add_relation st sid tid rt props conf src now).2).durableInsights =
        ((add_relation st sid tid rt props conf src now).2).insights) ∧
    (∀ st now,
      ((analyze_patterns st now).2).durableEntities =
        ((analyze_patterns st now).2).entities ∧
      ((analyze_patterns st now).2).durableRelations =
        ((analyze_patterns st now).2).relations ∧
      ((analyze_patterns st now).2).durableQueries =
        ((analyze_patterns st now).2).queries ∧
      ((analyze_patterns st now).2).durableInsights =
        ((analyze_patterns st now).2).insights) ∧
    (∀ st days now,
      ((cleanup_old_data st days now).2).durableEntities =
        ((cleanup_old_data st days now).2).entities ∧
      ((cleanup_old_data st days now).2).durableRelations =
        ((cleanup_old_data st days now).2).relations ∧
      ((cleanup_old_data st days now).2).durableQueries =
        ((cleanup_old_data st days now).2).queries ∧
      ((cleanup_old_data st days now).2).durableInsights =
        ((cleanup_old_data st days now).2).insights) ∧
    (∀ st et pat minc now,
      ((query_entities st et pat minc now).2).durableQueries = st.durableQueries ∧
      ((query_entities st et pat minc now).2).queries.length =
        st.queries.length + 1) ∧
    (∀ st sid tid rt minc now,
      ((query_relations st sid tid rt minc now).2).durableQueries =
        st.durableQueries ∧
      ((query_relations st sid tid rt minc now).2).queries.length =
        st.queries.length + 1) ∧
    (∀ st s t d now,
      ((find_path st s t d now).2).durableQueries = st.durableQueries ∧
      ((find_path st s t d now).2).queries.length = st.queries.length + 1) := by
  refine ⟨fun st name ty props conf src now => ⟨rfl, rfl, rfl, rfl⟩,
          fun st sid tid rt props conf src now => ⟨rfl, rfl, rfl, rfl⟩,
          fun st now => ⟨rfl, rfl, rfl, rfl⟩,
          fun st days now => ⟨rfl, rfl, rfl, rfl⟩,
          fun st et pat minc now => ⟨rfl, by simp [query_entities]⟩,
          fun st sid tid rt minc now => ⟨rfl, by simp [query_relations]⟩,
          fun st s t d now => ⟨rfl, by simp [find_path]⟩⟩

/-- C8: `export_graph` raises an error naming the unsupported format
exactly when the format is neither "json" nor "graphml"; a supported
format always yields an output document (and the function never touches
the in-memory collections in either case). -/
theorem export_unsupported_format (st : KGState) (format_type : String)
    (now : Int) :
    ((format_type ≠ "json" ∧ format_type ≠ "graphml") →
      export_graph st format_type now =
        Except.error ("Unsupported export format: " ++ format_type)) ∧
    ((format_type = "json" ∨ format_type = "graphml") →
      ∃ r, export_graph st format_type now = Except.ok r) := by
  constructor
  · intro ⟨h1, h2⟩
    unfold export_graph
    rw [if_neg h1, if_neg h2]
  · intro h
    unfold export_graph
    rcases h with h | h
    · rw [if_pos h]; exact ⟨_, rfl⟩
    · by_cases h1 : format_type = "json"
      · rw [if_pos h1]; exact ⟨_, rfl⟩
      · rw [if_neg h1, if_pos h]; exact ⟨_, rfl⟩

theorem export_unsupported_format_witness :
    (("xml" : String) ≠ "json" ∧ ("xml" : String) ≠ "graphml") ∧
    export_graph emptyState "xml" 0 =
      Except.error ("Unsupported export format: " ++ "xml") :=
  ⟨by decide, (export_unsupported_format emptyState "xml" 0).1 (by decide)⟩

/-- C3: on the store holding exactly A –calls→ B and B –calls→ C, one
call to `infer_transitive_relations "calls"` returns the single pair
(A, C) and appends exactly one relation A –calls→ C with confidence 0.6,
inferred/transitive properties and source "reasoning"; an immediate
second call returns no pair and leaves the relation collection unchanged. -/
theorem infer_transitive_calls_once :
    (infer_transitive_relations chainState "calls" 7).1 = [("A", "C")] ∧
    (infer_transitive_relations chainState "calls" 7).2.relations =
      chainState.relations ++
        [{ id := relationId "A" "calls" "C", source_id := "A", target_id := "C",
           relation_type := "calls",
           properties := [("inferred", Value.boolean true),
                          ("inference_type", Value.str "transitive")],
           confidence := 6 / 10, created_at := 7, updated_at := 7,
           source := "reasoning" }] ∧
    (infer_transitive_relations
      (infer_transitive_relations chainState "calls" 7).2 "calls" 8).1 = [] ∧
    (infer_transitive_relations
        (infer_transitive_relations chainState "calls" 7).2 "calls" 8).2.relations =
      (infer_transitive_relations chainState "calls" 7).2.relations := by
  decide

/-- Every path the bounded DFS emits ends at the target and is longer
than the trivial single-node path, provided the running path ends at the
current node (the invariant `find_path` establishes). -/
theorem dfs_emits_target (rels : List KnowledgeRelation) (tid : String) :
    ∀ (fuel : Nat) (visited : List String) (current : String)
      (path : List String),
      path.getLast? = some current →
      ∀ p ∈ dfs rels tid fuel visited current path,
        p.getLast? = some tid ∧ 1 < p.length := by
  intro fuel
  induction fuel with
  | zero =>
    intro visited current path hlast p hp
    simp [dfs] at hp
  | succ n ih =>
    intro visited current path hlast p hp
    rw [dfs] at hp
    by_cases hemit : current = tid ∧ 1 < path.length
    · rw [if_pos hemit, List.mem_singleton] at hp
      subst hp
      exact ⟨hemit.1 ▸ hlast, hemit.2⟩
    · rw [if_neg hemit] at hp
      by_cases hvis : current ∈ visited
      · rw [if_pos hvis] at hp
        simp at hp
      · rw [if_neg hvis, List.mem_flatten] at hp
        obtain ⟨s, hs, hps⟩ := hp
        rw [List.mem_map] at hs
        obtain ⟨r, hr, hrs⟩ := hs
        rw [← hrs] at hps
        by_cases hsrc : r.source_id = current
        · rw [if_pos hsrc] at hps
          refine ih _ _ _ ?_ p hps
          rw [show path ++ [r.relation_type, r.target_id] =
              (path ++ [r.relation_type]) ++ [r.target_id] by simp]
          exact List.getLast?_concat _
        · rw [if_neg hsrc] at hps
          simp at hps

/-- C2: on the store holding exactly A –uses→ B and B –requires→ C,
`find_path` with depth 2 returns exactly the alternating path
[A, "uses", B, "requires", C] and with depth 1 returns nothing; in
general every emitted path ends at the target and has more than one
element, so the trivial zero-hop path is rejected. -/
theorem find_path_bounded_dfs :
    (find_path pathState "A" "C" 2 5).1 =
      [["A", "uses", "B", "requires", "C"]] ∧
    (find_path pathState "A" "C" 1 5).1 = [] ∧
    (∀ (st : KGState) (source target : String) (d : Nat) (now : Int)
       (p : List String), p ∈ (find_path st source target d now).1 →
         p.getLast? = some target ∧ 1 < p.length) := by
  refine ⟨by decide, by decide, ?_⟩
  intro st source target d now p hp
  exact dfs_emits_target st.relations target (d + 1) [] source [source] rfl p hp

theorem find_path_bounded_dfs_witness :
    (["A", "uses", "B", "requires", "C"] ∈ (find_path pathState "A" "C" 2 5).1) ∧
    ((["A", "uses", "B", "requires", "C"] : List String).getLast? = some "C" ∧
      1 < (["A", "uses", "B", "requires", "C"] : List String).length) :=
  ⟨by decide,
   find_path_bounded_dfs.2.2 pathState "A" "C" 2 5 _ (by decide)⟩

/-- A store with one stale query and one stale insight (both at instant
-5), used to instantiate the retention claim. -/
def sampleAuditState : KGState :=
  { emptyState with
    queries := [{ query_id := "q1", query_text := "t", query_type := "entity",
                  parameters := [], timestamp := -5 }],
    insights := [{ insight_id := "i1", title := "t", description := "d",
                   insight_type := "pattern", confidence := 1, evidence := [],
                   created_at := -5 }] }

/-- C6: `cleanup_old_data` keeps exactly the Query and Insight records at
least as new as `now - days` (removing precisely those strictly older)
and never touches the entity or relation collections; with `days = 0`
it empties both audit collections whenever every record is strictly in
the past, and with `days = 100000` it removes nothing that is within the
100000-day window. -/
theorem cleanup_retention (st : KGState) (days : Nat) (now : Int) :
    (∀ q, q ∈ ((cleanup_old_data st days now).2).queries ↔
       q ∈ st.queries ∧ ¬(q.timestamp < now - (days : Int) * 86400)) ∧
    (∀ i, i ∈ ((cleanup_old_data st days now).2).insights ↔
       i ∈ st.insights ∧ ¬(i.created_at < now - (days : Int) * 86400)) ∧
    ((cleanup_old_data st days now).2).entities = st.entities ∧
    ((cleanup_old_data st days now).2).relations = st.relations ∧
    ((∀ q ∈ st.queries, q.timestamp < now) →
     (∀ i ∈ st.insights, i.created_at < now) →
      ((cleanup_old_data st 0 now).2).queries = [] ∧
      ((cleanup_old_data st 0 now).2).insights = []) ∧
    ((∀ q ∈ st.queries, now - 100000 * 86400 ≤ q.timestamp) →
     (∀ i ∈ st.insights, now - 100000 * 86400 ≤ i.created_at) →
      ((cleanup_old_data st 100000 now).2).queries = st.queries ∧
      ((cleanup_old_data st 100000 now).2).insights = st.insights) := by
  refine ⟨?_, ?_, rfl, rfl, ?_, ?_⟩
  · intro q
    simp [cleanup_old_data, save_data, List.mem_filter, not_lt]
  · intro i
    simp [cleanup_old_data, save_data, List.mem_filter, not_lt]
  · intro hq hi
    constructor
    · refine List.filter_eq_nil_iff.mpr fun q hqm => ?_
      simpa using not_le.mpr (hq q hqm)
    · refine List.filter_eq_nil_iff.mpr fun i him => ?_
      simpa using not_le.mpr (hi i him)
  · intro hq hi
    constructor
    · refine List.filter_eq_self.mpr fun q hqm => ?_
      simpa using hq q hqm
    · refine List.filter_eq_self.mpr fun i him => ?_
      simpa using hi i him

theorem cleanup_retention_witness :
    (∀ q ∈ sampleAuditState.queries, q.timestamp < 0) ∧
    (((cleanup_old_data sampleAuditState 0 0).2).queries = [] ∧
      ((cleanup_old_data sampleAuditState 0 0).2).insights = []) :=
  ⟨by decide,
   (cleanup_retention sampleAuditState 0 0).2.2.2.2.1 (by decide) (by decide)⟩

/-- Head step of the first-match lookup. -/
theorem plookup_cons (hd : String × Value) (tl : PropMap) (k : String) :
    plookup (hd :: tl) k = if hd.1 == k then some hd.2 else plookup tl k := by
  by_cases h : hd.1 == k <;> simp [plookup, List.find?_cons, h]

/-- Keys absent from a map look up to `none`. -/
theorem plookup_absent (m : PropMap) (k : String) (h : ∀ p ∈ m, p.1 ≠ k) :
    plookup m k = none := by
  have h2 : m.find? (fun kv => kv.1 == k) = none := by
    refine List.find?_eq_none.mpr fun p hp => ?_
    simp only [beq_iff_eq]
    exact h p hp
  simp [plookup, h2]

/-- Overwriting key `k` does not disturb lookups of other keys. -/
theorem plookup_map_set_ne (m : PropMap) (k k' : String) (v : Value)
    (hne : k' ≠ k) :
    plookup (m.map (fun kv => if kv.1 == k then (kv.1, v) else kv)) k' =
      plookup m k' := by
  induction m with
  | nil => rfl
  | cons hd tl ih =>
    by_cases h : hd.1 = k
    · have h1 : (hd.1 == k) = true := beq_iff_eq.mpr h
      have h2 : (hd.1 == k') = false :=
        beq_eq_false_iff_ne.mpr fun hh => hne (hh.symm.trans h)
      rw [List.map_cons, plookup_cons, plookup_cons, h1]
      simp only [if_true, h2, Bool.false_eq_true, if_false]
      exact ih
    · have h1 : (hd.1 == k) = false := beq_eq_false_iff_ne.mpr h
      rw [List.map_cons, plookup_cons, plookup_cons, h1]
      simp only [Bool.false_eq_true, if_false]
      rw [ih]

/-- Overwriting key `k` makes it look up to the new value, provided the
key was present. -/
theorem plookup_map_set_self (m : PropMap) (k : String) (v : Value)
    (h : m.any (fun kv => kv.1 == k) = true) :
    plookup (m.map (fun kv => if kv.1 == k then (kv.1, v) else kv)) k =
      some v := by
  induction m with
  | nil => simp at h
  | cons hd tl ih =>
    by_cases hh : hd.1 = k
    · have h1 : (hd.1 == k) = true := beq_iff_eq.mpr hh
      simp [List.map_cons, plookup_cons, h1, hh]
    · have h1 : (hd.1 == k) = false := beq_eq_false_iff_ne.mpr hh
      have h' : tl.any (fun kv => kv.1 == k) = true := by
        rw [List.any_cons, h1] at h
        simpa using h
      simp only [List.map_cons, h1, Bool.false_eq_true, if_false, plookup_cons]
      exact ih h'

/-- Appending a fresh key behaves as an insertion. -/
theorem plookup_append_absent (m : PropMap) (k k' : String) (v : Value)
    (h : m.any (fun kv => kv.1 == k) = false) :
    plookup (m ++ [(k, v)]) k' = if k' = k then some v else plookup m k' := by
  induction m with
  | nil =>
    by_cases hk : k' = k
    · have h1 : (k == k') = true := beq_iff_eq.mpr hk.symm
      rw [List.nil_append, plookup_cons]
      simp only [h1, if_true, if_pos hk]
    · have h1 : (k == k') = false := beq_eq_false_iff_ne.mpr fun hh => hk hh.symm
      rw [List.nil_append, plookup_cons]
      simp only [h1, Bool.false_eq_true, if_false, if_neg hk]
  | cons hd tl ih =>
    have hall := List.any_eq_false.mp h
    have h' : tl.any (fun kv => kv.1 == k) = false :=
      List.any_eq_false.mpr fun p hp => hall p (List.mem_cons_of_mem _ hp)
    rw [List.cons_append, plookup_cons, plookup_cons, ih h']
    by_cases hk : k' = k
    · have hhd : (hd.1 == k') = false := by
        refine beq_eq_false_iff_ne.mpr fun hh => ?_
        exact hall hd (List.mem_cons_self _ _) (by simpa using hh.trans hk)
      rw [hhd]
      simp only [Bool.false_eq_true, if_false]
    · rw [if_neg hk, if_neg hk]

/-- `dictSet` implements Python dict assignment at the lookup level. -/
theorem plookup_dictSet (m : PropMap) (k k' : String) (v : Value) :
    plookup (dictSet m k v) k' = if k' = k then some v else plookup m k' := by
  unfold dictSet
  by_cases h : m.any (fun kv => kv.1 == k) = true
  · rw [if_pos h]
    by_cases hk : k' = k
    · rw [if_pos hk, hk, plookup_map_set_self m k v h]
    · rw [if_neg hk, plookup_map_set_ne m k k' v hk]
  · have h' : m.any (fun kv => kv.1 == k) = false := by
      revert h
      cases m.any (fun kv => kv.1 == k) <;> simp
    rw [if_neg h]
    exact plookup_append_absent m k k' v h'

/-- `dictUpdate` is the left-biased union read: incoming keys (unique,
as in any Python dict) overwrite, all other keys fall through. -/
theorem plookup_dictUpdate (m inc : PropMap) (k : String)
    (hnd : (inc.map Prod.fst).Nodup) :
    plookup (dictUpdate m inc) k = (plookup inc k).or (plookup m k) := by
  induction inc generalizing m with
  | nil => simp [dictUpdate, plookup]
  | cons hd tl ih =>
    rw [List.map_cons] at hnd
    have hpair := List.nodup_cons.mp hnd
    have hstep : dictUpdate m (hd :: tl) = dictUpdate (dictSet m hd.1 hd.2) tl := by
      simp [dictUpdate]
    rw [hstep, ih _ hpair.2, plookup_cons]
    by_cases hk : k = hd.1
    · have htl : plookup tl k = none := by
        refine plookup_absent tl k fun p hp hpk => ?_
        apply hpair.1
        rw [← hk, ← hpk]
        exact List.mem_map_of_mem Prod.fst hp
      have hbeq : (hd.1 == k) = true := beq_iff_eq.mpr hk.symm
      rw [htl, plookup_dictSet, if_pos hk, hbeq]
      simp [Option.or]
    · have hbeq : (hd.1 == k) = false := beq_eq_false_iff_ne.mpr fun hh => hk hh.symm
      rw [plookup_dictSet, if_neg hk, hbeq]
      simp

/-- Upserting an absent entity appends the freshly created record. -/
theorem add_entity_absent (st : KGState) (name ty : String) (props : PropMap)
    (conf : Rat) (src : String) (now : Int)
    (h : st.entities.any (fun e => e.id == entityId name ty) = false) :
    (add_entity st name ty props conf src now).2.entities =
      st.entities ++
        [{ id := entityId name ty, name := name, type := ty,
           properties := props, confidence := conf, created_at := now,
           updated_at := now, source := src }] := by
  simp [add_entity, save_data, h]

/-- Upserting a present entity merges in place. -/
theorem add_entity_present (st : KGState) (name ty : String) (props : PropMap)
    (conf : Rat) (src : String) (now : Int)
    (h : st.entities.any (fun e => e.id == entityId name ty) = true) :
    (add_entity st name ty props conf src now).2.entities =
      st.entities.map (fun e =>
        if e.id == entityId name ty then
          { e with properties := dictUpdate e.properties props,
                   confidence := max e.confidence conf,
                   updated_at := now }
        else e) := by
  simp [add_entity, save_data, h]

section UpsertMerge

attribute [local irreducible] md5_16

/-- Merging lookup after an upsert over a store whose entity list ends
with the record carrying the target id (all parameters symbolic, so the
identifier hash stays opaque to unification). -/
theorem getEntity_add_entity_merge
    (prev : List KnowledgeEntity) (rec : KnowledgeEntity)
    (name ty : String) (p2 : PropMap) (c2 : Rat) (s2 : String) (t2 : Int)
    (st : KGState)
    (hent : st.entities = prev ++ [rec])
    (hid : rec.id = entityId name ty)
    (hall : ∀ e ∈ prev, (e.id == entityId name ty) = false) :
    getEntity (add_entity st name ty p2 c2 s2 t2).2 (entityId name ty) =
      some { rec with properties := dictUpdate rec.properties p2,
                      confidence := max rec.confidence c2,
                      updated_at := t2 } := by
  have hbeq : (rec.id == entityId name ty) = true := beq_iff_eq.mpr hid
  have h2 : st.entities.any (fun e => e.id == entityId name ty) = true := by
    rw [hent, List.any_append]
    simp [hbeq]
  unfold getEntity
  rw [add_entity_present _ _ _ _ _ _ _ h2, hent, List.map_append,
    List.find?_append]
  have hmapid : prev.map (fun e =>
      if e.id == entityId name ty then
        { e with properties := dictUpdate e.properties p2,
                 confidence := max e.confidence c2,
                 updated_at := t2 }
      else e) = prev := by
    calc prev.map (fun e =>
          if e.id == entityId name ty then
            { e with properties := dictUpdate e.properties p2,
                     confidence := max e.confidence c2,
                     updated_at := t2 }
          else e)
        = prev.map id := List.map_congr_left fun e he => by
            simp [hall e he]
      _ = prev := List.map_id _
  rw [hmapid]
  have hnone : prev.find? (fun e => e.id == entityId name ty) = none :=
    List.find?_eq_none.mpr fun e he => by simp [hall e he]
  rw [hnone, Option.none_or]
  simp [List.find?, hbeq]

/-- C1: two `add_entity` calls with the same (name, type) return the same
id; when the first call created the record, the second merges into it:
the stored properties are the union with the second call's values
overwriting on key conflict (`plookup` of the result prefers the second
call's map), confidence is the maximum of the two, the creation timestamp
and source tag stay those of the first call, and only the update
timestamp advances to the second call's instant. -/
theorem upsert_entity_idempotent_merge (st : KGState) (name ty : String)
    (p1 p2 : PropMap) (c1 c2 : Rat) (s1 s2 : String) (t1 t2 : Int)
    (habsent : st.entities.any (fun e => e.id == entityId name ty) = false)
    (hnd : (p2.map Prod.fst).Nodup) :
    (add_entity st name ty p1 c1 s1 t1).1 =
      (add_entity (add_entity st name ty p1 c1 s1 t1).2 name ty p2 c2 s2 t2).1 ∧
    getEntity
        (add_entity (add_entity st name ty p1 c1 s1 t1).2 name ty p2 c2 s2 t2).2
        (entityId name ty) =
      some { id := entityId name ty, name := name, type := ty,
             properties := dictUpdate p1 p2, confidence := max c1 c2,
             created_at := t1, updated_at := t2, source := s1 } ∧
    (∀ k, plookup (dictUpdate p1 p2) k = (plookup p2 k).or (plookup p1 k)) := by
  have hall : ∀ e ∈ st.entities, (e.id == entityId name ty) = false :=
    fun e he => by simpa using List.any_eq_false.mp habsent e he
  refine ⟨rfl, ?_, fun k => plookup_dictUpdate p1 p2 k hnd⟩
  exact getEntity_add_entity_merge st.entities
    (KnowledgeEntity.mk (entityId name ty) name ty p1 c1 t1 t1 s1)
    name ty p2 c2 s2 t2 (add_entity st name ty p1 c1 s1 t1).2
    (add_entity_absent st name ty p1 c1 s1 t1 habsent) rfl hall

theorem upsert_entity_idempotent_merge_witness :
    (emptyState.entities.any
        (fun e => e.id == entityId "Foo" "concept") = false) ∧
    (([("b", Value.str "2")].map Prod.fst).Nodup) ∧
    (getEntity
        (add_entity
          (add_entity emptyState "Foo" "concept" [("a", Value.str "1")]
            1 "m1" 0).2
          "Foo" "concept" [("b", Value.str "2")] (1 / 2) "m2" 1).2
        (entityId "Foo" "concept") =
      some { id := entityId "Foo" "concept", name := "Foo", type := "concept",
             properties := dictUpdate [("a", Value.str "1")] [("b", Value.str "2")],
             confidence := max 1 (1 / 2),
             created_at := 0, updated_at := 1, source := "m1" }) :=
  ⟨by decide, by decide,
   (upsert_entity_idempotent_merge emptyState "Foo" "concept"
      [("a", Value.str "1")] [("b", Value.str "2")] 1 (1 / 2) "m1" "m2" 0 1
      (by decide) (by decide)).2.1⟩

end UpsertMerge

/-- Jaccard similarity over sets is symmetric. -/
theorem jaccard_comm (a b : Finset String) : jaccard a b = jaccard b a := by
  unfold jaccard
  rw [Finset.union_comm, Finset.inter_comm]

/-- Congruence for the conditional accumulations of the similarity score. -/
theorem if_add_congr (p q : Prop) [Decidable p] [Decidable q] (h : p ↔ q)
    (a b x y : Rat) (ha : a = b) (hx : x = y) :
    (if p then a + x else a) = if q then b + y else b := by
  subst ha; subst hx
  by_cases hp : p
  · rw [if_pos hp, if_pos (h.mp hp)]
  · rw [if_neg hp, if_neg (fun hq => hp (h.mpr hq))]

/-- C4: the similarity score of `_calculate_similarity` — 0.3 for type
equality, plus 0.4 times the Jaccard similarity of the lowercase
whitespace-tokenized names, plus 0.3 times the Jaccard similarity of the
property-key sets, clipped above at 1 — is symmetric in its two entity
arguments. -/
theorem calculate_similarity_symmetric (e1 e2 : KnowledgeEntity) :
    calculate_similarity e1 e2 = calculate_similarity e2 e1 := by
  unfold calculate_similarity
  refine congrArg (fun r : Rat => min r 1) ?_
  refine if_add_congr _ _ and_comm _ _ _ _ ?_ ?_
  · refine if_add_congr _ _ and_comm _ _ _ _ ?_ ?_
    · by_cases ht : e1.type = e2.type
      · rw [if_pos ht, if_pos ht.symm]
      · rw [if_neg ht, if_neg fun hh => ht hh.symm]
    · rw [jaccard_comm]
  · rw [jaccard_comm]

/-- C7 counterexample: a store with one entity and one relation whose
endpoints are dangling ids.  `analyze_patterns` emits only two insights
and none with confidence 0.8: the highest-degree node (a dangling id) is
not a stored entity, so the claimed connectivity insight is not emitted
even though the store has at least one entity and one relation. -/
theorem analyze_patterns_dangling_counterexample :
    danglingState.entities.length = 1 ∧ danglingState.relations.length = 1 ∧
    (analyze_patterns danglingState 3).1.length = 2 ∧
    ∀ i ∈ (analyze_patterns danglingState 3).1, i.confidence ≠ 8 / 10 := by
  decide

/-- A Counter/defaultdict bump never yields the empty map. -/
theorem counterBump_ne_nil (acc : List (String × Nat)) (k : String) :
    counterBump acc k ≠ [] := by
  unfold counterBump
  by_cases h : acc.any (fun p => p.1 == k) = true
  · rw [if_pos h]
    cases acc with
    | nil => simp at h
    | cons hd tl => simp
  · rw [if_neg h]
    simp

theorem foldl_counterBump_ne_nil (l : List String) :
    ∀ acc : List (String × Nat), acc ≠ [] → l.foldl counterBump acc ≠ [] := by
  induction l with
  | nil => intro acc h; simpa using h
  | cons hd tl ih => intro acc _; exact ih _ (counterBump_ne_nil acc hd)

theorem pyCounter_ne_nil (l : List String) (h : l ≠ []) : pyCounter l ≠ [] := by
  cases l with
  | nil => exact absurd rfl h
  | cons hd tl =>
    show (hd :: tl).foldl counterBump [] ≠ []
    rw [List.foldl_cons]
    exact foldl_counterBump_ne_nil tl _ (counterBump_ne_nil [] hd)

theorem foldl_degree_ne_nil (l : List KnowledgeRelation) :
    ∀ acc : List (String × Nat), acc ≠ [] →
      l.foldl (fun m r => counterBump (counterBump m r.source_id) r.target_id)
        acc ≠ [] := by
  induction l with
  | nil => intro acc h; simpa using h
  | cons hd tl ih => intro acc _; exact ih _ (counterBump_ne_nil _ _)

theorem nodeDegrees_ne_nil (rels : List KnowledgeRelation) (h : rels ≠ []) :
    nodeDegrees rels ≠ [] := by
  cases rels with
  | nil => exact absurd rfl h
  | cons hd tl =>
    show (hd :: tl).foldl _ [] ≠ []
    rw [List.foldl_cons]
    exact foldl_degree_ne_nil tl _ (counterBump_ne_nil _ _)

/-- C7 (amended): on a store with at least one entity and at least one
relation, each analysis run emits the most-frequent-entity-type insight
with confidence exactly 0.9 and the most-frequent-relation-type insight
with confidence exactly 0.9, and — provided the highest-degree node id is
a stored entity — also the highest-degree-node insight with confidence
exactly 0.8; exactly these are appended to the insight collection. -/
theorem analyze_patterns_amended (st : KGState) (now : Int)
    (he : st.entities ≠ []) (hr : st.relations ≠ [])
    (hmax : (st.entities.find? (fun e =>
      e.id == (maxBySnd (nodeDegrees st.relations)).1)).isSome) :
    (analyze_patterns st now).1.map
        (fun i => (i.title, i.confidence, i.insight_type)) =
      [("实体类型分布分析", 9 / 10, "pattern"),
       ("关系类型分布分析", 9 / 10, "pattern"),
       ("连接度分析", 8 / 10, "pattern")] ∧
    (analyze_patterns st now).2.insights =
      st.insights ++ (analyze_patterns st now).1 := by
  obtain ⟨e, he'⟩ := Option.isSome_iff_exists.mp hmax
  have h1 : pyCounter (st.entities.map (fun e => e.type)) ≠ [] :=
    pyCounter_ne_nil _ (by simpa using he)
  have h2 : pyCounter (st.relations.map (fun r => r.relation_type)) ≠ [] :=
    pyCounter_ne_nil _ (by simpa using hr)
  have h3 : nodeDegrees st.relations ≠ [] := nodeDegrees_ne_nil _ hr
  constructor
  · simp only [analyze_patterns, if_pos h1, if_pos h2, if_pos h3, he']
    rfl
  · simp only [analyze_patterns, save_data, if_pos h1, if_pos h2, if_pos h3,
      he']

theorem analyze_patterns_amended_witness :
    (connState.entities ≠ [] ∧ connState.relations ≠ [] ∧
      (connState.entities.find? (fun e =>
        e.id == (maxBySnd (nodeDegrees connState.relations)).1)).isSome) ∧
    ((analyze_patterns connState 11).1.map
        (fun i => (i.title, i.confidence, i.insight_type)) =
      [("实体类型分布分析", 9 / 10, "pattern"),
       ("关系类型分布分析", 9 / 10, "pattern"),
       ("连接度分析", 8 / 10, "pattern")] ∧
     (analyze_patterns connState 11).2.insights =
       connState.insights ++ (analyze_patterns connState 11).1) :=
  ⟨⟨by decide, by decide, by decide⟩,
   analyze_patterns_amended connState 11 (by decide) (by decide) (by decide)⟩

/-- C10: the Reasoner operations are not read-only with respect to the
Query audit collection.  Every `query_entities` / `query_relations` /
`find_path` call appends exactly one Query record, and the Reasoner
performs its existing-relation checks through `query_relations`:
on the A–B–C chain `infer_transitive_relations` grows the audit trail by
2 (the type fetch plus one candidate check), the similarity scan over two
matching entities grows it by 1, and the recommendation scan over one
other entity with three suggested relation types grows it by 3. -/
theorem reasoner_grows_query_audit :
    (∀ st sid tid rt minc now,
      ((query_relations st sid tid rt minc now).2).queries.length =
        st.queries.length + 1) ∧
    (∀ st et pat minc now,
      ((query_entities st et pat minc now).2).queries.length =
        st.queries.length + 1) ∧
    (∀ st s t d now,
      ((find_path st s t d now).2).queries.length = st.queries.length + 1) ∧
    ((infer_transitive_relations chainState "calls" 7).2.queries.length =
      chainState.queries.length + 2) ∧
    ((find_similar_entities simState "s1" (1 / 2) 4).2.queries.length =
      simState.queries.length + 1) ∧
    ((recommend_relations recState "f1" 5 4).2.queries.length =
      recState.queries.length + 3) := by
  refine ⟨fun st sid tid rt minc now => by simp [query_relations],
          fun st et pat minc now => by simp [query_entities],
          fun st s t d now => by simp [find_path],
          by decide, by decide, by decide⟩

end KG
